import Mathlib

/-!
Shallow embedding of the statistical insight engine of
`src/components/dashboard/lib.ts` (a quantified-self dashboard).

Numbers: the TypeScript code computes with IEEE doubles; the embedding uses
exact arithmetic (`ℚ` for the data-path, `ℝ` where a square root appears).
The only non-finite double behaviours the engine can reach are
  * division of a positive number by zero (`Infinity`), modelled by `JsFloat`,
  * reading past the end of an array (`undefined` → `NaN`), modelled at the
    single place it can happen (`calculateCorrelation`, see there).
-/

namespace Dashboard

/-- A JavaScript number that may be `Infinity`, `-Infinity` or `NaN`.
Used where the source can actually produce such a value
(`calculateEffectSize` divides by a pooled standard deviation of 0). -/
inductive JsFloat where
  | fin (x : ℝ)
  | inf
  | negInf
  | nan

/-- JavaScript division `a / b` of finite doubles: `x / 0` is `Infinity` for
`x > 0`, `-Infinity` for `x < 0`, and `NaN` for `0 / 0`. -/
noncomputable def jsDiv (a b : ℝ) : JsFloat :=
  if b = 0 then (if a = 0 then .nan else if 0 < a then .inf else .negInf)
  else .fin (a / b)

/-- The JavaScript comparison `v > c` for a possibly non-finite `v` and a
finite `c`: `Infinity > c` is true, any comparison with `NaN` is false. -/
def JsFloat.gtR (v : JsFloat) (c : ℝ) : Prop :=
  match v with
  | .fin x => c < x
  | .inf => True
  | .negInf => False
  | .nan => False

noncomputable instance (v : JsFloat) (c : ℝ) : Decidable (v.gtR c) := by
  unfold JsFloat.gtR; cases v <;> infer_instance

/-- Mean of a list of numbers, `sum / length` (division by zero yields the
junk value 0; every caller in the source guards the length first). -/
def listMean (l : List ℚ) : ℚ := l.sum / l.length

/-- Modelled from the `simple-statistics` library: `standardDeviation` is the
population standard deviation, `sqrt(Σ (v - mean)² / n)`. -/
def popVariance (l : List ℚ) : ℚ :=
  (l.map (fun v => (v - listMean l) ^ 2)).sum / l.length

/-- Modelled from the `simple-statistics` library: `standardDeviation`
(population, divide by `n`). The library throws on an empty list; every call
site guards `length ≥ 2`, so the junk value `sqrt 0 = 0` is never observed. -/
noncomputable def standardDeviation (l : List ℚ) : ℝ :=
  Real.sqrt ((popVariance l : ℚ) : ℝ)

/-- `calculateEffectSize` (lib.ts:173-185): Cohen's d,
`|mean1 - mean2| / pooledStdev` with
`pooledStdev = sqrt(((n1-1)·sd1² + (n2-1)·sd2²) / (n1+n2-2))`.
The division is JavaScript division: when both groups are constant the pooled
standard deviation is 0 and the result is `Infinity` (or `NaN` if the means
are also equal). -/
noncomputable def calculateEffectSize (group1 group2 : List ℚ) : JsFloat :=
  let n1 : ℝ := group1.length
  let n2 : ℝ := group2.length
  let mean1 : ℚ := group1.sum / group1.length
  let mean2 : ℚ := group2.sum / group2.length
  let pooledStdev : ℝ :=
    Real.sqrt (((n1 - 1) * standardDeviation group1 ^ 2 +
                (n2 - 1) * standardDeviation group2 ^ 2) / (n1 + n2 - 2))
  jsDiv |((mean1 : ℝ)) - ((mean2 : ℝ))| pooledStdev

/-- `getCorrelationStrength` (lib.ts:188-195): bucket `|r|` into a label. -/
noncomputable def getCorrelationStrength (correlation : ℝ) : String :=
  let absCorr := |correlation|
  if absCorr < 0.1 then "negligible"
  else if absCorr < 0.3 then "weak"
  else if absCorr < 0.5 then "moderate"
  else if absCorr < 0.7 then "strong"
  else "very strong"

/-- `calculateCorrelation` (lib.ts:198-235): Pearson correlation.
`n` is `x.length`; the means are `Σx / n` and `Σy / n` (the latter uses ALL
of `y` but divides by `x.length`); the variance loop runs `i < n`, so it reads
`y[0..n)`.  When `y` is shorter than `x` the loop reads `undefined`, every
accumulated sum becomes `NaN`, the zero-variance test fails, and the final
`isNaN` guard returns 0 — modelled by the `y.length < n` branch.  In exact
arithmetic the remaining computation is finite (after the zero-variance test
the denominator `sqrt(xxVar·yyVar)` is positive), so no other `NaN` arises;
the clamp branches mirror lines 226-228. -/
noncomputable def calculateCorrelation (x y : List ℚ) : ℝ :=
  let n := x.length
  if n < 2 then 0
  else if y.length < n then 0
  else
    let xMean : ℚ := x.sum / n
    let yMean : ℚ := y.sum / n
    let yT := y.take n
    let xxVar : ℚ := (x.map (fun v => (v - xMean) ^ 2)).sum
    let yyVar : ℚ := (yT.map (fun v => (v - yMean) ^ 2)).sum
    let xyVar : ℚ := ((x.zip yT).map (fun p => (p.1 - xMean) * (p.2 - yMean))).sum
    if xxVar = 0 ∨ yyVar = 0 then 0
    else
      let c : ℝ := ((xyVar : ℚ) : ℝ) / Real.sqrt (((xxVar : ℚ) : ℝ) * ((yyVar : ℚ) : ℝ))
      if 1 < c then 1
      else if c < -1 then -1
      else c

/-- Modelled from the `simple-statistics` library: `tTest(sample, x)` is a
ONE-sample t-test expecting a number `x`; `calculatePValue` passes an array
(hence the `@ts-expect-error` in the source).  `mean(sample) - x` with an
array operand of length ≥ 2 evaluates to `NaN` (and the caller only reaches
the call when `group2.length ≥ 2`), so the caller's validation
`typeof number ∧ ¬isNaN ∧ 0 ≤ t ≤ 1` never accepts it: no valid result. -/
def tTestAttempt (_sample _x : List ℚ) : Option ℚ := none

/-- `calculatePValue` (lib.ts:238-282): groups smaller than 2 give 1; two
constant groups give 1 (equal constants) or 0.0001 (different); otherwise the
t-test attempt is validated (it never passes, see `tTestAttempt`) and the
pseudo-p fallback `1 - min(1, |mean1 - mean2| / 10)` is returned. -/
def calculatePValue (group1 group2 : List ℚ) : ℚ :=
  if group1.length < 2 ∨ group2.length < 2 then 1
  else
    let isGroup1Constant := group1.all (fun val => val = group1.headI)
    let isGroup2Constant := group2.all (fun val => val = group2.headI)
    if isGroup1Constant ∧ isGroup2Constant ∧ group1.headI = group2.headI then 1
    else if isGroup1Constant ∧ isGroup2Constant then 1 / 10000
    else
      let mean1 : ℚ := group1.sum / group1.length
      let mean2 : ℚ := group2.sum / group2.length
      match tTestAttempt group1 group2 with
      | some t => if 0 ≤ t ∧ t ≤ 1 then t else 1 - min 1 (|mean1 - mean2| / 10)
      | none => 1 - min 1 (|mean1 - mean2| / 10)

/-! ### Calendar dates and day records -/

/-- A Gregorian calendar date (the `yyyy-MM-dd` part of a Melbourne
wall-clock time). -/
structure Ymd where
  year : ℕ
  month : ℕ
  day : ℕ
  deriving DecidableEq

/-- Gregorian leap year. -/
def isLeap (y : ℕ) : Bool := (y % 4 = 0 ∧ y % 100 ≠ 0) ∨ y % 400 = 0

/-- Days in a Gregorian month. -/
def daysInMonth (y m : ℕ) : ℕ :=
  if m = 2 then (if isLeap y then 29 else 28)
  else if m = 4 ∨ m = 6 ∨ m = 9 ∨ m = 11 then 30
  else 31

/-- The previous calendar day.  Subtracting 24 hours from a wall-clock
instant (lib.ts:138 `melbourneDate.getTime() - 24*60*60*1000`) decrements the
calendar date; the time-zone conversion around it is the external `date-fns-tz`
collaborator and is modelled as Melbourne wall-clock arithmetic. -/
def prevCalendarDay (d : Ymd) : Ymd :=
  if 1 < d.day then ⟨d.year, d.month, d.day - 1⟩
  else if 1 < d.month then ⟨d.year, d.month - 1, daysInMonth d.year (d.month - 1)⟩
  else ⟨d.year - 1, 12, 31⟩

/-- Left-pad a numeral to two digits. -/
def pad2 (n : ℕ) : String := if n < 10 then "0" ++ toString n else toString n

/-- Left-pad a numeral to four digits. -/
def pad4 (n : ℕ) : String :=
  if n < 10 then "000" ++ toString n
  else if n < 100 then "00" ++ toString n
  else if n < 1000 then "0" ++ toString n
  else toString n

/-- Render a date as `yyyy-MM-dd` (the `formatInTimeZone(date, TIMEZONE,
'yyyy-MM-dd')` key format). -/
def renderYmd (d : Ymd) : String :=
  pad4 d.year ++ "-" ++ pad2 d.month ++ "-" ++ pad2 d.day

/-- The numeric value of a decimal digit character. -/
def digitVal (c : Char) : Option ℕ :=
  if '0' ≤ c ∧ c ≤ '9' then some (c.toNat - 48) else none

/-- Parse a canonical `yyyy-MM-dd` key back into a date (the
`new Date(date)` + `setDate(getDate() - 1)` round-trip in
`analysePreviousDayImpact`; non-canonical strings have no parse and the day
contributes no pair — the external date library would throw there). -/
def parseYmd (s : String) : Option Ymd :=
  match s.data with
  | [y1, y2, y3, y4, sep1, mo1, mo2, sep2, d1, d2] =>
    if sep1 = '-' ∧ sep2 = '-' then
      match digitVal y1, digitVal y2, digitVal y3, digitVal y4,
            digitVal mo1, digitVal mo2, digitVal d1, digitVal d2 with
      | some a, some b, some c, some e, some f, some g, some i, some j =>
        some ⟨((a * 10 + b) * 10 + c) * 10 + e, f * 10 + g, i * 10 + j⟩
      | _, _, _, _, _, _, _, _ => none
    else none
  | _ => none

/-- A day record (`ProcessedData` in lib.ts): a calendar-date key and named
numeric fields.  A missing field (JS `undefined`) and a `null` field both
fail the source's validity test `d[k] !== null ∧ typeof d[k] === 'number'`,
so both are modelled as the absence of the key. -/
structure PData where
  date : String
  fields : List (String × ℚ)
  deriving DecidableEq

/-- Dynamic field access `d[key]`. -/
def PData.get (d : PData) (key : String) : Option ℚ :=
  (d.fields.find? (fun p => p.1 = key)).map (fun p => p.2)

/-- Field assignment `obj[key] = v`: overwrite in place, or append a new key
(JS objects keep string keys in insertion order). -/
def setField (fs : List (String × ℚ)) (key : String) (v : ℚ) : List (String × ℚ) :=
  if fs.any (fun p => p.1 = key) then
    fs.map (fun p => if p.1 = key then (key, v) else p)
  else fs ++ [(key, v)]

/-! ### Event aggregation (`processEventData`, lib.ts:125-158) -/

/-- A raw event (`DailyLog`), given as the Melbourne wall-clock time of its
`created_at` instant (the UTC→Melbourne conversion is the external
`date-fns-tz` collaborator). -/
structure LocalEvent where
  ymd : Ymd
  hour : ℕ
  minute : ℕ
  event_type : String

/-- `DAY_PIVOT_HOUR` (lib.ts:53). -/
def DAY_PIVOT_HOUR : ℕ := 18

/-- `HOURS_IN_DAY` (lib.ts:54). -/
def HOURS_IN_DAY : ℕ := 24

/-- One step of the `events.reduce` in `processEventData`: compute the plain
local hour `hour + minutes/60` (NOT pivot-folded — line 132 only adds the
minutes), backdate an `asleep` event whose local hour is before the pivot to
the previous calendar day, store `normalizedHour + 24` for backdated events
and `normalizedHour` otherwise, last write per (date, type) wins. -/
def processEventStep (acc : List PData) (e : LocalEvent) : List PData :=
  let normalizedHour : ℚ := (e.hour : ℚ) + (e.minute : ℚ) / 60
  let shouldAdjustDate := e.event_type = "asleep" ∧ e.hour < DAY_PIVOT_HOUR
  let date := if shouldAdjustDate then renderYmd (prevCalendarDay e.ymd) else renderYmd e.ymd
  let adjustedHour := if shouldAdjustDate then normalizedHour + (HOURS_IN_DAY : ℚ) else normalizedHour
  if acc.any (fun d => d.date = date) then
    acc.map (fun d => if d.date = date then ⟨d.date, setField d.fields e.event_type adjustedHour⟩ else d)
  else acc ++ [⟨date, [(e.event_type, adjustedHour)]⟩]

/-- Stable insertion sort by ascending date key (the
`sort(new Date(a.date) - new Date(b.date))` on `yyyy-MM-dd` keys is
lexicographic order on the strings). -/
def insertByDate (d : PData) : List PData → List PData
  | [] => [d]
  | x :: xs => if d.date < x.date then d :: x :: xs else x :: insertByDate d xs

/-- Sort day records ascending by date. -/
def sortByDate : List PData → List PData
  | [] => []
  | x :: xs => insertByDate x (sortByDate xs)

/-- `processEventData` (lib.ts:125-158): fold events into one record per
calendar day (insertion-ordered, as `Object.values` returns), then sort
ascending by date. -/
def processEventData (events : List LocalEvent) : List PData :=
  sortByDate (events.foldl processEventStep [])

/-! ### String formatting helpers -/

/-- `formatTimeToAMPM` (lib.ts:71-85): `null` renders as a dash; hours ≥ 24
are folded back by 24; then 12-hour clock with zero-padded minutes.
`Math.floor` is `Int.floor`; `Math.round` is floor of `x + 1/2` (ties up);
the hour values reaching this function are non-negative, where JS `%` agrees
with `Int.emod`. -/
def formatTimeToAMPM (hours : Option ℚ) : String :=
  match hours with
  | none => "-"
  | some h =>
    let normalizedHours : ℚ := if (HOURS_IN_DAY : ℚ) ≤ h then h - (HOURS_IN_DAY : ℚ) else h
    let wholePart : ℤ := ⌊normalizedHours⌋
    let minutePart : ℤ := ⌊(normalizedHours - wholePart) * 60 + 1 / 2⌋
    let adjustedHours : ℤ := wholePart % 12
    let adjustedHours : ℤ := if adjustedHours = 0 then 12 else adjustedHours
    let ampm := if wholePart < 12 then "AM" else "PM"
    toString adjustedHours ++ ":" ++ pad2 minutePart.toNat ++ " " ++ ampm

/-- JavaScript `Number.prototype.toFixed(1)`: one digit after the decimal
point, rounding to nearest (the exact decimal values produced by the engine
are unaffected by the double-rounding quirks of `toFixed`). -/
def toFixed1 (q : ℚ) : String :=
  if q < 0 then
    let n : ℕ := (⌊-q * 10 + 1 / 2⌋).toNat
    "-" ++ toString (n / 10) ++ "." ++ toString (n % 10)
  else
    let n : ℕ := (⌊q * 10 + 1 / 2⌋).toNat
    toString (n / 10) ++ "." ++ toString (n % 10)

/-- JavaScript `s.replace('_', ' ')`: replace only the FIRST underscore. -/
def replaceUnderscore (l : List Char) : List Char :=
  match l with
  | [] => []
  | c :: rest => if c = '_' then ' ' :: rest else c :: replaceUnderscore rest

/-- `eventType.replace('_', ' ')` on a string. -/
def replaceU (s : String) : String := ⟨replaceUnderscore s.data⟩

/-- `sub` occurs as a contiguous substring of `s`. -/
def strContains (s sub : String) : Prop := ∃ a b : String, s = a ++ sub ++ b

/-! ### Analytics results and the four insight analyzers (lib.ts:161-954) -/

/-- `AnalyticsResult` (lib.ts:161-170). -/
structure AnalyticsResult where
  correlation : ℝ
  averageScore : ℚ
  sampleSize : ℕ
  insight : String
  pValue : Option ℚ
  effectSize : Option JsFloat
  standardDev : Option ℝ
  correlationStrength : String

/-- The confidence qualifier shared verbatim by all four analyzers
(lib.ts:398-407, 629-638, 773-782, 925-934): thresholds on `(pValue,
effectSize)` after a `pValue !== null && effectSize !== null` guard. -/
noncomputable def confidencePhraseOf (pValue : Option ℚ) (effectSize : Option JsFloat) : String :=
  match pValue, effectSize with
  | some p, some es =>
    if p < 1 / 100 ∧ es.gtR (4 / 5) then "There is very strong evidence that "
    else if p < 1 / 20 ∧ es.gtR (1 / 2) then "There is strong evidence that "
    else if p < 1 / 10 ∧ es.gtR (1 / 5) then "There is some evidence that "
    else ""
  | _, _ => ""

/-- The closing sentence `effectSize !== null && effectSize > 0.5 ? big :
small` shared by all four analyzers. -/
noncomputable def substantialTail (effectSize : Option JsFloat) (big small : String) : String :=
  match effectSize with
  | some es => if es.gtR (1 / 2) then big else small
  | none => small

/-- The valid-day filter of `analyseEventScoreRelationship` (lib.ts:291-297):
both the event field and the score field present and numeric. -/
def validES (data : List PData) (eventType scoreType : String) : List PData :=
  data.filter (fun d => (d.get eventType).isSome && (d.get scoreType).isSome)

/-- The partition normalization of `analyseEventScoreRelationship`
(lib.ts:313-326): `asleep` times before the pivot gain 24, any other event
type is folded back into the 0-24 range. -/
def esNorm (eventType : String) (eventTime : ℚ) : ℚ :=
  if eventType = "asleep" then
    if eventTime < (DAY_PIVOT_HOUR : ℚ) then eventTime + (HOURS_IN_DAY : ℚ) else eventTime
  else
    if (HOURS_IN_DAY : ℚ) ≤ eventTime then eventTime - (HOURS_IN_DAY : ℚ) else eventTime

/-- The `earlyDays` cohort (lib.ts:313-327). -/
def earlyDaysES (data : List PData) (eventType scoreType : String) (earlyThreshold : ℚ) : List PData :=
  (validES data eventType scoreType).filter
    (fun d => decide (esNorm eventType ((d.get eventType).getD 0) ≤ earlyThreshold - (DAY_PIVOT_HOUR : ℚ)))

/-- The `lateDays` cohort (lib.ts:328): `validData.filter(d =>
!earlyDays.includes(d))`; since `earlyDays` is itself a filter of `validData`
by a value-determined predicate, reference containment coincides with value
containment. -/
def lateDaysES (data : List PData) (eventType scoreType : String) (earlyThreshold : ℚ) : List PData :=
  (validES data eventType scoreType).filter
    (fun d => decide (d ∉ earlyDaysES data eventType scoreType earlyThreshold))

/-- `analyseEventScoreRelationship` (lib.ts:284-427). -/
noncomputable def analyseEventScoreRelationship (data : List PData)
    (eventType scoreType : String) (earlyThreshold : ℚ) : AnalyticsResult :=
  let validData := validES data eventType scoreType
  if validData.length < 3 then
    ⟨0, 0, validData.length,
     "Not enough data yet. Keep logging your daily activities to see patterns emerge.",
     none, none, none, "insufficient data"⟩
  else
    let earlyDays := earlyDaysES data eventType scoreType earlyThreshold
    let lateDays := lateDaysES data eventType scoreType earlyThreshold
    let earlyScores := earlyDays.map (fun d => (d.get scoreType).getD 0)
    let lateScores := lateDays.map (fun d => (d.get scoreType).getD 0)
    let earlyAvg : Option ℚ :=
      if 0 < earlyScores.length then some (earlyScores.sum / earlyScores.length) else none
    let lateAvg : Option ℚ :=
      if 0 < lateScores.length then some (lateScores.sum / lateScores.length) else none
    match earlyAvg, lateAvg with
    | some earlyAvgV, some lateAvgV =>
      let times := validData.map (fun d =>
        let time := (d.get eventType).getD 0
        if (HOURS_IN_DAY : ℚ) ≤ time then time - (HOURS_IN_DAY : ℚ) else time)
      let scores := validData.map (fun d => (d.get scoreType).getD 0)
      let correlation : ℝ := if 2 ≤ times.length then calculateCorrelation times scores else 0
      let correlationStrength := getCorrelationStrength correlation
      let pValue : Option ℚ :=
        if 2 ≤ earlyScores.length ∧ 2 ≤ lateScores.length then
          some (calculatePValue earlyScores lateScores) else none
      let effectSize : Option JsFloat :=
        if 2 ≤ earlyScores.length ∧ 2 ≤ lateScores.length then
          some (calculateEffectSize earlyScores lateScores) else none
      let standardDev : Option ℝ :=
        if 2 ≤ scores.length then some (standardDeviation scores) else none
      let scoreDiff := earlyAvgV - lateAvgV
      let normalizedThreshold := earlyThreshold - (DAY_PIVOT_HOUR : ℚ)
      let timeStr := formatTimeToAMPM (some normalizedThreshold)
      let eventName := replaceU eventType
      let scoreTypeName := replaceU scoreType
      let insight :=
        if |correlation| < (1 / 10 : ℝ) then
          "Your " ++ scoreTypeName ++ " doesn\x27t seem to be affected by " ++ eventName ++
          " timing. This suggests you may have flexibility in when you " ++ eventName ++ "."
        else
          let betterTime := if 0 < scoreDiff then "earlier" else "later"
          let difference := toFixed1 |scoreDiff|
          let betterAvg := toFixed1 (if betterTime = "earlier" then earlyAvgV else lateAvgV)
          let worseAvg := toFixed1 (if betterTime = "earlier" then lateAvgV else earlyAvgV)
          let confidencePhrase := confidencePhraseOf pValue effectSize
          confidencePhrase ++ (if eventName = "asleep" then "going to bed" else eventName) ++
          " " ++ betterTime ++ " than " ++ timeStr ++ " tends to boost your " ++
          scoreTypeName ++ " by " ++ difference ++ " points (averaging " ++ betterAvg ++
          " vs " ++ worseAvg ++ "). " ++
          substantialTail effectSize
            "This is a substantial difference-consider taking note."
            "The difference is small, though it may be worth noting."
      ⟨correlation, earlyAvgV, validData.length, insight, pValue, effectSize,
       standardDev, correlationStrength⟩
    | _, _ =>
      ⟨0, (earlyAvg.orElse (fun _ => lateAvg)).getD 0, validData.length,
       "Need more varied timing data to analyse the impact of " ++ replaceU eventType ++ " times.",
       none, none, none, "insufficient data"⟩

/-- The valid-day filter of `analyseDurationImpact` (lib.ts:527-534): start
event, end event and score all present. -/
def validDur (data : List PData) (startEventType endEventType scoreType : String) : List PData :=
  data.filter (fun d =>
    (d.get startEventType).isSome && (d.get endEventType).isSome && (d.get scoreType).isSome)

/-- `dataWithDurations` (lib.ts:550-563): `(duration, score)` pairs, adding
24 hours when the end time is before the start time. -/
def durPairs (data : List PData) (startEventType endEventType scoreType : String) : List (ℚ × ℚ) :=
  (validDur data startEventType endEventType scoreType).map (fun d =>
    let startTime := (d.get startEventType).getD 0
    let endTime0 := (d.get endEventType).getD 0
    let endTime := if endTime0 < startTime then endTime0 + (HOURS_IN_DAY : ℚ) else endTime0
    (endTime - startTime, (d.get scoreType).getD 0))

/-- `analyseDurationImpact` (lib.ts:519-659). -/
noncomputable def analyseDurationImpact (data : List PData)
    (startEventType endEventType scoreType : String) (durationThreshold : ℚ) : AnalyticsResult :=
  let validData := validDur data startEventType endEventType scoreType
  if validData.length < 3 then
    ⟨0, 0, validData.length, "Not enough data yet to analyse duration patterns.",
     none, none, none, "insufficient data"⟩
  else
    let dataWithDurations := durPairs data startEventType endEventType scoreType
    let shortDuration := dataWithDurations.filter (fun d => decide (d.1 ≤ durationThreshold))
    let longDuration := dataWithDurations.filter (fun d => decide (durationThreshold < d.1))
    let shortScores := shortDuration.map (fun d => d.2)
    let longScores := longDuration.map (fun d => d.2)
    let shortAvg : Option ℚ :=
      if 0 < shortScores.length then some (shortScores.sum / shortScores.length) else none
    let longAvg : Option ℚ :=
      if 0 < longScores.length then some (longScores.sum / longScores.length) else none
    match shortAvg, longAvg with
    | some shortAvgV, some longAvgV =>
      let durations := dataWithDurations.map (fun d => d.1)
      let scores := dataWithDurations.map (fun d => d.2)
      let correlation := calculateCorrelation durations scores
      let correlationStrength := getCorrelationStrength correlation
      let pValue : Option ℚ :=
        if 2 ≤ shortScores.length ∧ 2 ≤ longScores.length then
          some (calculatePValue shortScores longScores) else none
      let effectSize : Option JsFloat :=
        if 2 ≤ shortScores.length ∧ 2 ≤ longScores.length then
          some (calculateEffectSize shortScores longScores) else none
      let standardDev : Option ℝ :=
        if 2 ≤ scores.length then some (standardDeviation scores) else none
      let scoreDiff := shortAvgV - longAvgV
      let activityName := replaceU startEventType
      let scoreTypeName := replaceU scoreType
      let durationStr := toFixed1 durationThreshold
      let insight :=
        if |correlation| < (1 / 10 : ℝ) then
          "Your " ++ scoreTypeName ++ " doesn\x27t seem to be affected by how long you spend on " ++
          activityName ++ ". This suggests you might have good stamina for this activity."
        else
          let betterDuration := if 0 < scoreDiff then "shorter" else "longer"
          let difference := toFixed1 |scoreDiff|
          let betterAvg := toFixed1 (if 0 < scoreDiff then shortAvgV else longAvgV)
          let worseAvg := toFixed1 (if 0 < scoreDiff then longAvgV else shortAvgV)
          let confidencePhrase := confidencePhraseOf pValue effectSize
          confidencePhrase ++ betterDuration ++ " " ++ activityName ++ " sessions (" ++
          (if betterDuration = "shorter" then "under" else "over") ++ " " ++ durationStr ++
          " hours) tend to boost your " ++ scoreTypeName ++ " by " ++ difference ++
          " points (averaging " ++ betterAvg ++ " vs " ++ worseAvg ++ "). " ++
          substantialTail effectSize
            "This is a substantial effect you may want to consider when planning your day."
            "While the effect is modest, it might be worth keeping in mind."
      ⟨correlation, shortAvgV, validData.length, insight, pValue, effectSize,
       standardDev, correlationStrength⟩
    | _, _ =>
      ⟨0, (shortAvg.orElse (fun _ => longAvg)).getD 0, validData.length,
       "Need more varied duration data for analysis.",
       none, none, none, "insufficient data"⟩

/-- The valid-day filter of `analyseSequentialEvents` (lib.ts:670-677). -/
def validSeq (data : List PData) (firstEventType secondEventType scoreType : String) : List PData :=
  data.filter (fun d =>
    (d.get firstEventType).isSome && (d.get secondEventType).isSome && (d.get scoreType).isSome)

/-- `dataWithGaps` (lib.ts:693-706): `(gap, score)` pairs, adding 24 hours
when the second event is before the first. -/
def seqPairs (data : List PData) (firstEventType secondEventType scoreType : String) : List (ℚ × ℚ) :=
  (validSeq data firstEventType secondEventType scoreType).map (fun d =>
    let firstTime := (d.get firstEventType).getD 0
    let secondTime0 := (d.get secondEventType).getD 0
    let secondTime := if secondTime0 < firstTime then secondTime0 + (HOURS_IN_DAY : ℚ) else secondTime0
    (secondTime - firstTime, (d.get scoreType).getD 0))

/-- `analyseSequentialEvents` (lib.ts:662-803). -/
noncomputable def analyseSequentialEvents (data : List PData)
    (firstEventType secondEventType scoreType : String) (gapThreshold : ℚ) : AnalyticsResult :=
  let validData := validSeq data firstEventType secondEventType scoreType
  if validData.length < 3 then
    ⟨0, 0, validData.length, "Not enough data yet to analyse event sequence patterns.",
     none, none, none, "insufficient data"⟩
  else
    let dataWithGaps := seqPairs data firstEventType secondEventType scoreType
    let shortGap := dataWithGaps.filter (fun d => decide (d.1 ≤ gapThreshold))
    let longGap := dataWithGaps.filter (fun d => decide (gapThreshold < d.1))
    let shortScores := shortGap.map (fun d => d.2)
    let longScores := longGap.map (fun d => d.2)
    let shortAvg : Option ℚ :=
      if 0 < shortScores.length then some (shortScores.sum / shortScores.length) else none
    let longAvg : Option ℚ :=
      if 0 < longScores.length then some (longScores.sum / longScores.length) else none
    match shortAvg, longAvg with
    | some shortAvgV, some longAvgV =>
      let gaps := dataWithGaps.map (fun d => d.1)
      let scores := dataWithGaps.map (fun d => d.2)
      let correlation := calculateCorrelation gaps scores
      let correlationStrength := getCorrelationStrength correlation
      let pValue : Option ℚ :=
        if 2 ≤ shortScores.length ∧ 2 ≤ longScores.length then
          some (calculatePValue shortScores longScores) else none
      let effectSize : Option JsFloat :=
        if 2 ≤ shortScores.length ∧ 2 ≤ longScores.length then
          some (calculateEffectSize shortScores longScores) else none
      let standardDev : Option ℝ :=
        if 2 ≤ scores.length then some (standardDeviation scores) else none
      let scoreDiff := shortAvgV - longAvgV
      let firstEventName := replaceU firstEventType
      let secondEventName := replaceU secondEventType
      let scoreTypeName := replaceU scoreType
      let gapStr := toFixed1 gapThreshold
      let insight :=
        if |correlation| < (1 / 10 : ℝ) then
          "The time gap between your " ++ firstEventName ++ " and " ++ secondEventName ++
          " doesn\x27t seem to affect your " ++ scoreTypeName ++
          ". This suggests you have flexibility in scheduling these activities."
        else
          let betterGap := if 0 < scoreDiff then "shorter" else "longer"
          let difference := toFixed1 |scoreDiff|
          let betterAvg := toFixed1 (if 0 < scoreDiff then shortAvgV else longAvgV)
          let worseAvg := toFixed1 (if 0 < scoreDiff then longAvgV else shortAvgV)
          let confidencePhrase := confidencePhraseOf pValue effectSize
          confidencePhrase ++ "having a " ++ betterGap ++ " gap (" ++
          (if betterGap = "shorter" then "under" else "over") ++ " " ++ gapStr ++
          " hours) between " ++ firstEventName ++ " and " ++ secondEventName ++
          " tends to boost your " ++ scoreTypeName ++ " by " ++ difference ++
          " points (averaging " ++ betterAvg ++ " vs " ++ worseAvg ++ "). " ++
          substantialTail effectSize
            "This is a substantial pattern worth considering in your schedule."
            "While the effect is modest, it might help optimize your routine."
      ⟨correlation, shortAvgV, validData.length, insight, pValue, effectSize,
       standardDev, correlationStrength⟩
    | _, _ =>
      ⟨0, (shortAvg.orElse (fun _ => longAvg)).getD 0, validData.length,
       "Need more varied timing data for sequence analysis.",
       none, none, none, "insufficient data"⟩

/-- The `dateMap` of `analysePreviousDayImpact` (lib.ts:813-816):
`acc[d.date] = d` — one record per date, last write wins, keys in first-seen
order (as `Object.entries` later returns them). -/
def dateMapOf (data : List PData) : List PData :=
  data.foldl (fun acc d =>
    if acc.any (fun p => p.date = d.date) then
      acc.map (fun p => if p.date = d.date then d else p)
    else acc ++ [d]) []

/-- `validPairs` (lib.ts:819-839): for each day in the date map, decrement
its date key by one calendar day and look that key up in the map; keep the
`(previous-day event hour, this-day score)` pair when both fields exist. -/
def validPairsPD (data : List PData) (eventType scoreType : String) : List (ℚ × ℚ) :=
  (dateMapOf data).foldl (fun acc dayData =>
    match parseYmd dayData.date with
    | none => acc
    | some ymd =>
      let prevDateStr := renderYmd (prevCalendarDay ymd)
      match (dateMapOf data).find? (fun p => p.date = prevDateStr) with
      | none => acc
      | some prevDayData =>
        match prevDayData.get eventType, dayData.get scoreType with
        | some prevDayEvent, some nextDayScore => acc ++ [(prevDayEvent, nextDayScore)]
        | _, _ => acc) []

/-- The `earlyGroup` cohort (lib.ts:855-862): the previous-day hour gains 24
when below the pivot, then is compared with the raw threshold. -/
def earlyGroupPD (data : List PData) (eventType scoreType : String) (threshold : ℚ) : List (ℚ × ℚ) :=
  (validPairsPD data eventType scoreType).filter (fun p =>
    let normalizedTime := if p.1 < (DAY_PIVOT_HOUR : ℚ) then p.1 + (HOURS_IN_DAY : ℚ) else p.1
    decide (normalizedTime ≤ threshold))

/-- The `lateGroup` cohort (lib.ts:863): `!earlyGroup.includes(p)`, which for
a filter of the same list coincides with value non-membership. -/
def lateGroupPD (data : List PData) (eventType scoreType : String) (threshold : ℚ) : List (ℚ × ℚ) :=
  (validPairsPD data eventType scoreType).filter (fun p =>
    decide (p ∉ earlyGroupPD data eventType scoreType threshold))

/-- `analysePreviousDayImpact` (lib.ts:806-954). -/
noncomputable def analysePreviousDayImpact (data : List PData)
    (eventType scoreType : String) (threshold : ℚ) : AnalyticsResult :=
  let validPairs := validPairsPD data eventType scoreType
  if validPairs.length < 3 then
    ⟨0, 0, validPairs.length, "Not enough consecutive days of data to analyse patterns.",
     none, none, none, "insufficient data"⟩
  else
    let earlyGroup := earlyGroupPD data eventType scoreType threshold
    let lateGroup := lateGroupPD data eventType scoreType threshold
    let earlyScores := earlyGroup.map (fun p => p.2)
    let lateScores := lateGroup.map (fun p => p.2)
    let earlyAvg : Option ℚ :=
      if 0 < earlyScores.length then some (earlyScores.sum / earlyScores.length) else none
    let lateAvg : Option ℚ :=
      if 0 < lateScores.length then some (lateScores.sum / lateScores.length) else none
    match earlyAvg, lateAvg with
    | some earlyAvgV, some lateAvgV =>
      let times := validPairs.map (fun p => p.1)
      let scores := validPairs.map (fun p => p.2)
      let correlation := calculateCorrelation times scores
      let correlationStrength := getCorrelationStrength correlation
      let pValue : Option ℚ :=
        if 2 ≤ earlyScores.length ∧ 2 ≤ lateScores.length then
          some (calculatePValue earlyScores lateScores) else none
      let effectSize : Option JsFloat :=
        if 2 ≤ earlyScores.length ∧ 2 ≤ lateScores.length then
          some (calculateEffectSize earlyScores lateScores) else none
      let standardDev : Option ℝ :=
        if 2 ≤ scores.length then some (standardDeviation scores) else none
      let scoreDiff := earlyAvgV - lateAvgV
      let eventName := replaceU eventType
      let scoreTypeName := replaceU scoreType
      let timeStr := formatTimeToAMPM (some (threshold - (DAY_PIVOT_HOUR : ℚ)))
      let insight :=
        if |correlation| < (1 / 10 : ℝ) then
          "Your next-day " ++ scoreTypeName ++ " doesn\x27t seem to be affected by when you " ++
          eventName ++ " the previous evening. This suggests you might be adaptable to different evening schedules."
        else
          let betterTime := if 0 < scoreDiff then "earlier" else "later"
          let difference := toFixed1 |scoreDiff|
          let betterAvg := toFixed1 (if 0 < scoreDiff then earlyAvgV else lateAvgV)
          let worseAvg := toFixed1 (if 0 < scoreDiff then lateAvgV else earlyAvgV)
          let confidencePhrase := confidencePhraseOf pValue effectSize
          confidencePhrase ++ "when you " ++ eventName ++ " " ++ betterTime ++ " than " ++
          timeStr ++ " in the evening, your next morning\x27s " ++ scoreTypeName ++
          " tends to be " ++ difference ++ " points higher (averaging " ++ betterAvg ++
          " vs " ++ worseAvg ++ "). " ++
          substantialTail effectSize
            "This suggests your evening routine has a substantial impact on how you feel the next day."
            "While the effect is modest, adjusting your evening schedule might help improve your mornings."
      ⟨correlation, earlyAvgV, validPairs.length, insight, pValue, effectSize,
       standardDev, correlationStrength⟩
    | _, _ =>
      ⟨0, (earlyAvg.orElse (fun _ => lateAvg)).getD 0, validPairs.length,
       "Need more varied timing data to analyse patterns.",
       none, none, none, "insufficient data"⟩

/-! ### Helper lemmas -/

lemma list_sum_map_sub (l : List ℚ) (m : ℚ) :
    (l.map (fun v => v - m)).sum = l.sum - l.length * m := by
  induction l with
  | nil => simp
  | cons a t ih =>
    simp only [List.map_cons, List.sum_cons, List.length_cons, ih]
    push_cast
    ring

lemma list_sum_center (l : List ℚ) (hl : l ≠ []) :
    (l.map (fun v => v - l.sum / l.length)).sum = 0 := by
  have hn : (l.length : ℚ) ≠ 0 := by
    have := List.length_pos.mpr hl
    exact_mod_cast Nat.pos_iff_ne_zero.mp this
  rw [list_sum_map_sub]
  field_simp

lemma list_sum_const (l : List ℚ) (c : ℚ) (h : ∀ a ∈ l, a = c) :
    l.sum = c * l.length := by
  induction l with
  | nil => simp
  | cons a t ih =>
    have ha : a = c := h a (List.mem_cons_self a t)
    have ht : t.sum = c * t.length := ih (fun b hb => h b (List.mem_cons_of_mem a hb))
    simp only [List.sum_cons, List.length_cons, ha, ht]
    push_cast
    ring

lemma list_const_mean (l : List ℚ) (c : ℚ) (h : ∀ a ∈ l, a = c) (hl : l ≠ []) :
    l.sum / l.length = c := by
  have hn : (l.length : ℚ) ≠ 0 := by
    have := List.length_pos.mpr hl
    exact_mod_cast Nat.pos_iff_ne_zero.mp this
  rw [list_sum_const l c h]
  field_simp

lemma list_sq_dev_sum_zero (l : List ℚ) (c : ℚ) (h : ∀ a ∈ l, a = c) (hl : l ≠ []) :
    (l.map (fun v => (v - l.sum / l.length) ^ 2)).sum = 0 := by
  rw [list_const_mean l c h hl]
  apply List.sum_eq_zero
  intro v hv
  obtain ⟨a, ha, rfl⟩ := List.mem_map.mp hv
  simp [h a ha]

lemma zip_snd_const_sum (x : List ℚ) (c m1 m2 : ℚ) :
    ∀ yT : List ℚ, (∀ b ∈ yT, b = c) → yT.length = x.length →
    ((x.zip yT).map (fun p => (p.1 - m1) * (p.2 - m2))).sum =
      (c - m2) * (x.map (fun v => v - m1)).sum := by
  induction x with
  | nil => intro yT _ _; simp
  | cons a xs ih =>
    intro yT hc hlen
    cases yT with
    | nil => simp at hlen
    | cons b ys =>
      have hb : b = c := hc b (List.mem_cons_self b ys)
      have hys : ∀ v ∈ ys, v = c := fun v hv => hc v (List.mem_cons_of_mem b hv)
      have hlen2 : ys.length = xs.length := by simpa using hlen
      simp only [List.zip_cons_cons, List.map_cons, List.sum_cons]
      rw [ih ys hys hlen2, hb]
      ring

lemma zip_mul_swap (x : List ℚ) (m1 m2 : ℚ) :
    ∀ y : List ℚ,
    ((x.zip y).map (fun p => (p.1 - m1) * (p.2 - m2))).sum =
      ((y.zip x).map (fun p => (p.1 - m2) * (p.2 - m1))).sum := by
  induction x with
  | nil => intro y; cases y <;> simp
  | cons a xs ih =>
    intro y
    cases y with
    | nil => simp
    | cons b ys =>
      simp only [List.zip_cons_cons, List.map_cons, List.sum_cons]
      rw [ih ys]
      ring

lemma xyVar_zero_of_y_const (x y : List ℚ) (hy : ∀ a ∈ y, ∀ b ∈ y, a = b)
    (h1 : ¬x.length < 2) (h2 : ¬y.length < x.length) :
    ((x.zip (y.take x.length)).map
      (fun p => (p.1 - x.sum / x.length) * (p.2 - y.sum / x.length))).sum = 0 := by
  have hne : x ≠ [] := by
    intro he
    rw [he] at h1
    exact h1 (by norm_num)
  have hyne : y ≠ [] := by
    intro he
    rw [he] at h2
    apply h2
    simpa using List.length_pos.mpr hne
  obtain ⟨c, hcy⟩ : ∃ c, c ∈ y := List.exists_mem_of_ne_nil y hyne
  have hcT : ∀ b ∈ y.take x.length, b = c := by
    intro b hb
    exact hy b (List.take_subset _ _ hb) c hcy
  have hlen : (y.take x.length).length = x.length := by
    rw [List.length_take]
    omega
  rw [zip_snd_const_sum x c (x.sum / x.length) (y.sum / x.length)
      (y.take x.length) hcT hlen]
  rw [list_sum_center x hne]
  ring

/-! ### C4: basic properties of `calculateCorrelation` -/

/-- C4: `calculateCorrelation` returns 0 when `x` has fewer than 2 elements,
0 when either series has zero variance (is constant), 0 on the NaN path
(which in exact arithmetic arises exactly when `y` is shorter than `x`, from
the out-of-range index reads), and in every case a value in `[-1, 1]`. -/
theorem correlation_basic_properties (x y : List ℚ) :
    (-1 ≤ calculateCorrelation x y ∧ calculateCorrelation x y ≤ 1) ∧
    (x.length < 2 → calculateCorrelation x y = 0) ∧
    (y.length < x.length → calculateCorrelation x y = 0) ∧
    ((∀ a ∈ x, ∀ b ∈ x, a = b) → calculateCorrelation x y = 0) ∧
    ((∀ a ∈ y, ∀ b ∈ y, a = b) → calculateCorrelation x y = 0) := by
  refine ⟨?_, ?_, ?_, ?_, ?_⟩
  · unfold calculateCorrelation
    dsimp only
    split_ifs with h1 h2 h3 h4 h5
    · norm_num
    · norm_num
    · norm_num
    · norm_num
    · norm_num
    · constructor <;> [linarith [not_lt.mp h5]; linarith [not_lt.mp h4]]
  · intro h
    unfold calculateCorrelation
    dsimp only
    rw [if_pos h]
  · intro h
    unfold calculateCorrelation
    dsimp only
    rcases Nat.lt_or_ge x.length 2 with hl | hl
    · rw [if_pos hl]
    · rw [if_neg (not_lt.mpr hl), if_pos h]
  · intro hx
    unfold calculateCorrelation
    dsimp only
    split_ifs with h1 h2 h3 h4 h5 <;> try rfl
    all_goals {
      exfalso
      apply h3
      left
      have hne : x ≠ [] := by
        intro he
        rw [he] at h1
        exact h1 (by norm_num)
      obtain ⟨c, hcx⟩ : ∃ c, c ∈ x := List.exists_mem_of_ne_nil x hne
      have hc : ∀ a ∈ x, a = c := fun a ha => hx a ha c hcx
      exact list_sq_dev_sum_zero x c hc hne
    }
  · intro hy
    unfold calculateCorrelation
    dsimp only
    split_ifs with h1 h2 h3 h4 h5 <;> try rfl
    · exfalso
      have hxyz := xyVar_zero_of_y_const x y hy h1 h2
      rw [hxyz] at h4
      norm_num at h4
    · exfalso
      have hxyz := xyVar_zero_of_y_const x y hy h1 h2
      rw [hxyz] at h5
      norm_num at h5
    · have hxyz := xyVar_zero_of_y_const x y hy h1 h2
      rw [hxyz]
      norm_num

/-- Witness for C4: each hypothesis discharged at a concrete input. -/
theorem correlation_basic_properties_witness :
    calculateCorrelation [(3 : ℚ)] [4] = 0 ∧
    calculateCorrelation [(1 : ℚ), 2, 3] [5] = 0 ∧
    calculateCorrelation [(3 : ℚ), 3] [1, 2] = 0 ∧
    calculateCorrelation [(1 : ℚ), 2] [6, 6] = 0 :=
  ⟨(correlation_basic_properties [(3 : ℚ)] [4]).2.1 (by decide),
   (correlation_basic_properties [(1 : ℚ), 2, 3] [5]).2.2.1 (by decide),
   (correlation_basic_properties [(3 : ℚ), 3] [1, 2]).2.2.2.1 (by decide),
   (correlation_basic_properties [(1 : ℚ), 2] [6, 6]).2.2.2.2 (by decide)⟩

/-! ### C8: symmetry of `calculateCorrelation` -/

/-- C8 counterexample: `calculateCorrelation` is NOT symmetric for arrays of
different lengths.  `corr([0,10],[0,10,100])` is a positive number (the loop
runs over `x.length = 2` indices but the `y` mean is `Σy / 2`), while
`corr([0,10,100],[0,10])` hits the out-of-range read (NaN) path and is 0. -/
theorem correlation_not_symmetric :
    calculateCorrelation [(0 : ℚ), 10] [0, 10, 100] ≠
      calculateCorrelation [(0 : ℚ), 10, 100] [0, 10] := by
  have hr : calculateCorrelation [(0 : ℚ), 10, 100] [0, 10] = 0 := by
    unfold calculateCorrelation
    norm_num
  have hl : 0 < calculateCorrelation [(0 : ℚ), 10] [0, 10, 100] := by
    unfold calculateCorrelation
    norm_num [List.take]
    have hs : (0 : ℝ) < Real.sqrt (50 * 5050) := Real.sqrt_pos.mpr (by norm_num)
    have hs2 : Real.sqrt (50 * 5050) ^ 2 = 50 * 5050 := Real.sq_sqrt (by norm_num)
    have h50 : (50 : ℝ) < Real.sqrt (50 * 5050) := by nlinarith
    split_ifs with ha hb
    · norm_num
    · exfalso
      have : (0 : ℝ) < 50 / Real.sqrt (50 * 5050) := by positivity
      linarith
    · positivity
  rw [hr]
  exact ne_of_gt hl

/-- C8 amended: `calculateCorrelation(x, y) = calculateCorrelation(y, x)`
holds whenever the two arrays have EQUAL length (for unequal lengths the two
calls disagree, see `correlation_not_symmetric`). -/
theorem correlation_symm_of_length_eq (x y : List ℚ) (h : x.length = y.length) :
    calculateCorrelation x y = calculateCorrelation y x := by
  unfold calculateCorrelation
  dsimp only
  by_cases h2 : x.length < 2
  · rw [if_pos h2, if_pos (show y.length < 2 by omega)]
  · rw [if_neg h2, if_neg (show ¬(y.length < 2) by omega),
      if_neg (show ¬(y.length < x.length) by omega),
      if_neg (show ¬(x.length < y.length) by omega)]
    have hty : y.take x.length = y := by rw [h]; exact List.take_length y
    have htx : x.take y.length = x := by rw [← h]; exact List.take_length x
    rw [hty, htx]
    rw [show ((y.length : ℚ)) = ((x.length : ℚ)) by exact_mod_cast congrArg Nat.cast h.symm]
    rw [zip_mul_swap y (y.sum / ((x.length : ℚ))) (x.sum / ((x.length : ℚ))) x]
    by_cases h0 : (x.map (fun v => (v - x.sum / ((x.length : ℚ))) ^ 2)).sum = 0 ∨
        (y.map (fun v => (v - y.sum / ((x.length : ℚ))) ^ 2)).sum = 0
    · rw [if_pos h0, if_pos (Or.symm h0)]
    · rw [if_neg h0, if_neg (fun hc => h0 (Or.symm hc))]
      rw [mul_comm (((y.map (fun v => (v - y.sum / ((x.length : ℚ))) ^ 2)).sum : ℚ) : ℝ)]

/-- Witness for the amended C8 at a concrete equal-length input. -/
theorem correlation_symm_of_length_eq_witness :
    calculateCorrelation [(1 : ℚ), 2, 3] [5, 4, 9] =
      calculateCorrelation [(5 : ℚ), 4, 9] [1, 2, 3] :=
  correlation_symm_of_length_eq [(1 : ℚ), 2, 3] [5, 4, 9] (by decide)

/-! ### C10: `calculatePValue` is total with values in [0,1] -/

/-- C10: for every pair of groups, `calculatePValue` returns a number in
`[0, 1]` (it is a total function of its inputs — never NaN, null, or a
throw), and groups with fewer than 2 elements yield 1; the pseudo-p fallback
`1 - min(1, |mean1 - mean2| / 10)` stays inside `[0, 1]`. -/
theorem pvalue_total_in_unit_interval (g1 g2 : List ℚ) :
    0 ≤ calculatePValue g1 g2 ∧ calculatePValue g1 g2 ≤ 1 ∧
    (g1.length < 2 ∨ g2.length < 2 → calculatePValue g1 g2 = 1) := by
  unfold calculatePValue tTestAttempt
  dsimp only
  split_ifs with hA hB hC
  · exact ⟨by norm_num, by norm_num, fun _ => rfl⟩
  · exact ⟨by norm_num, by norm_num, fun h => absurd h hA⟩
  · exact ⟨by norm_num, by norm_num, fun h => absurd h hA⟩
  · have h1 : (0 : ℚ) ≤ min 1 (|g1.sum / g1.length - g2.sum / g2.length| / 10) :=
      le_min (by norm_num) (by positivity)
    have h2 : min (1 : ℚ) (|g1.sum / g1.length - g2.sum / g2.length| / 10) ≤ 1 :=
      min_le_left _ _
    exact ⟨by linarith, by linarith, fun h => absurd h hA⟩

/-- Witness for C10: the short-group hypothesis discharged concretely. -/
theorem pvalue_total_in_unit_interval_witness :
    calculatePValue [(5 : ℚ)] [1, 2, 3] = 1 :=
  (pvalue_total_in_unit_interval [(5 : ℚ)] [1, 2, 3]).2.2 (by decide)

/-! ### C5: internally-constant cohorts `[7,7,7]` vs `[3,3,3]` -/

/-- C5: with the constant cohorts `[7,7,7]` and `[3,3,3]` the statistics path
is total: `calculatePValue` takes the constant-groups branch and returns
0.0001 (and 1 when both cohorts are the same constant), and
`calculateEffectSize` is `Infinity` (its pooled standard deviation is 0 and
the mean difference is positive) rather than a crash. -/
theorem constant_cohorts_stats :
    calculatePValue [(7 : ℚ), 7, 7] [3, 3, 3] = 1 / 10000 ∧
    calculatePValue [(7 : ℚ), 7, 7] [7, 7, 7] = 1 ∧
    calculateEffectSize [(7 : ℚ), 7, 7] [3, 3, 3] = JsFloat.inf := by
  refine ⟨?_, ?_, ?_⟩
  · unfold calculatePValue tTestAttempt
    simp only [List.length_cons, List.length_nil, List.headI, List.all_cons,
      List.all_nil, Bool.and_eq_true, decide_eq_true_eq, List.sum_cons, List.sum_nil]
    norm_num
  · unfold calculatePValue tTestAttempt
    simp only [List.length_cons, List.length_nil, List.headI, List.all_cons,
      List.all_nil, Bool.and_eq_true, decide_eq_true_eq, List.sum_cons, List.sum_nil]
    norm_num
  · unfold calculateEffectSize standardDeviation popVariance listMean jsDiv
    norm_num

/-! ### C2 / C3: the `asleep` backdating rule of `processEventData` -/

/-- C2 counterexample: the claim says a pre-pivot `asleep` event stores the
pivot-folded value PLUS another 24 (local hour + 48, i.e. 49 for 1 AM); the
code (lib.ts:149) stores `normalizedHour + 24` = local hour + 24 = 25. -/
theorem sleep_backdate_hour_counterexample :
    processEventData [⟨⟨2024, 1, 2⟩, 1, 0, "asleep"⟩] =
      [⟨"2024-01-01", [("asleep", 25)]⟩] ∧ ((25 : ℚ) ≠ 1 + 24 + 24) := by
  constructor
  · have hcond : (("asleep" : String) = "asleep" ∧ 1 < DAY_PIVOT_HOUR) :=
      ⟨rfl, by norm_num [DAY_PIVOT_HOUR]⟩
    unfold processEventData
    simp only [List.foldl_cons, List.foldl_nil]
    unfold processEventStep
    dsimp only
    simp only [if_pos hcond]
    simp only [List.any_nil, Bool.false_eq_true, if_false, List.nil_append]
    simp [sortByDate, insertByDate, HOURS_IN_DAY, DAY_PIVOT_HOUR]
    refine ⟨by decide, by norm_num⟩
  · norm_num

/-- C2 amended: for every raw `asleep` event whose local clock hour is below
the pivot (18), `processEventData` attributes the event to the previous
calendar day, and the stored hour equals the local hour plus 24 — the plain
pivot-folded value, with NO additional 24 on top of it. -/
theorem sleep_backdate_hour_amended (d : Ymd) (h mi : ℕ) (hh : h < 18) :
    processEventData [⟨d, h, mi, "asleep"⟩] =
      [⟨renderYmd (prevCalendarDay d), [("asleep", (h : ℚ) + (mi : ℚ) / 60 + 24)]⟩] := by
  have hh2 : h < DAY_PIVOT_HOUR := hh
  have hle : ¬ (DAY_PIVOT_HOUR ≤ h) := by
    simp only [DAY_PIVOT_HOUR] at hh ⊢
    omega
  have hcond : (("asleep" : String) = "asleep" ∧ h < DAY_PIVOT_HOUR) := ⟨rfl, hh⟩
  unfold processEventData
  simp only [List.foldl_cons, List.foldl_nil]
  unfold processEventStep
  dsimp only
  simp only [if_pos hcond]
  simp only [List.any_nil, Bool.false_eq_true, if_false, List.nil_append]
  simp [sortByDate, insertByDate, HOURS_IN_DAY, hh2, hle]

/-- Witness for the amended C2 at a concrete pre-pivot sleep event. -/
theorem sleep_backdate_hour_amended_witness :
    processEventData [⟨⟨2024, 3, 1⟩, 2, 30, "asleep"⟩] =
      [⟨renderYmd (prevCalendarDay ⟨2024, 3, 1⟩), [("asleep", (2 : ℚ) + (30 : ℚ) / 60 + 24)]⟩] :=
  sleep_backdate_hour_amended ⟨2024, 3, 1⟩ 2 30 (by norm_num)

/-- C3: a single `asleep` event at 2024-01-02 01:00 Melbourne time with pivot
18 yields exactly one day record, keyed by the previous calendar date
2024-01-01, whose `asleep` field is 25.0 = 1 + 24 (since 1 < 18). -/
theorem sleep_event_0100_previous_day :
    processEventData [⟨⟨2024, 1, 2⟩, 1, 0, "asleep"⟩] =
      [⟨renderYmd ⟨2024, 1, 1⟩, [("asleep", 1 + 24)]⟩] ∧
    renderYmd ⟨2024, 1, 1⟩ = "2024-01-01" ∧ (1 : ℕ) < 18 := by
  refine ⟨?_, by decide, by norm_num⟩
  have hcond : (("asleep" : String) = "asleep" ∧ 1 < DAY_PIVOT_HOUR) :=
    ⟨rfl, by norm_num [DAY_PIVOT_HOUR]⟩
  unfold processEventData
  simp only [List.foldl_cons, List.foldl_nil]
  unfold processEventStep
  dsimp only
  simp only [if_pos hcond]
  simp only [List.any_nil, Bool.false_eq_true, if_false, List.nil_append]
  simp [sortByDate, insertByDate, HOURS_IN_DAY, DAY_PIVOT_HOUR]
  decide

/-! ### C1: all four analyzers return the insufficient-data result below 3 samples -/

/-- C1: each analyzer with a valid-sample count of 0, 1 or 2 returns early —
correlation 0, averageScore 0, sampleSize equal to that count, its fixed
not-enough-data insight, correlationStrength "insufficient data", and
pValue = effectSize = standardDev = null — without any correlation or
effect-size computation. -/
theorem analyzers_insufficient_data_early_return :
    (∀ data eventType scoreType thr, (validES data eventType scoreType).length < 3 →
      analyseEventScoreRelationship data eventType scoreType thr =
        ⟨0, 0, (validES data eventType scoreType).length,
         "Not enough data yet. Keep logging your daily activities to see patterns emerge.",
         none, none, none, "insufficient data"⟩) ∧
    (∀ data startEventType endEventType scoreType thr,
      (validDur data startEventType endEventType scoreType).length < 3 →
      analyseDurationImpact data startEventType endEventType scoreType thr =
        ⟨0, 0, (validDur data startEventType endEventType scoreType).length,
         "Not enough data yet to analyse duration patterns.",
         none, none, none, "insufficient data"⟩) ∧
    (∀ data firstEventType secondEventType scoreType thr,
      (validSeq data firstEventType secondEventType scoreType).length < 3 →
      analyseSequentialEvents data firstEventType secondEventType scoreType thr =
        ⟨0, 0, (validSeq data firstEventType secondEventType scoreType).length,
         "Not enough data yet to analyse event sequence patterns.",
         none, none, none, "insufficient data"⟩) ∧
    (∀ data eventType scoreType thr, (validPairsPD data eventType scoreType).length < 3 →
      analysePreviousDayImpact data eventType scoreType thr =
        ⟨0, 0, (validPairsPD data eventType scoreType).length,
         "Not enough consecutive days of data to analyse patterns.",
         none, none, none, "insufficient data"⟩) := by
  refine ⟨fun data et sc thr h => ?_, fun data s e sc thr h => ?_,
    fun data f g sc thr h => ?_, fun data et sc thr h => ?_⟩
  · unfold analyseEventScoreRelationship
    dsimp only
    rw [if_pos h]
  · unfold analyseDurationImpact
    dsimp only
    rw [if_pos h]
  · unfold analyseSequentialEvents
    dsimp only
    rw [if_pos h]
  · unfold analysePreviousDayImpact
    dsimp only
    rw [if_pos h]

/-- Witness for C1: all four analyzers applied to an empty dataset
(valid-sample count 0). -/
theorem analyzers_insufficient_data_early_return_witness :
    analyseEventScoreRelationship [] "asleep" "mood_score" 40 =
      ⟨0, 0, (validES [] "asleep" "mood_score").length,
       "Not enough data yet. Keep logging your daily activities to see patterns emerge.",
       none, none, none, "insufficient data"⟩ ∧
    analyseDurationImpact [] "work_start" "work_end" "mood_score" 6 =
      ⟨0, 0, (validDur [] "work_start" "work_end" "mood_score").length,
       "Not enough data yet to analyse duration patterns.",
       none, none, none, "insufficient data"⟩ ∧
    analyseSequentialEvents [] "awake" "work_start" "energy_score" 2 =
      ⟨0, 0, (validSeq [] "awake" "work_start" "energy_score").length,
       "Not enough data yet to analyse event sequence patterns.",
       none, none, none, "insufficient data"⟩ ∧
    analysePreviousDayImpact [] "asleep" "mood_score" 41 =
      ⟨0, 0, (validPairsPD [] "asleep" "mood_score").length,
       "Not enough consecutive days of data to analyse patterns.",
       none, none, none, "insufficient data"⟩ :=
  ⟨analyzers_insufficient_data_early_return.1 [] "asleep" "mood_score" 40 (by decide),
   analyzers_insufficient_data_early_return.2.1 [] "work_start" "work_end" "mood_score" 6 (by decide),
   analyzers_insufficient_data_early_return.2.2.1 [] "awake" "work_start" "energy_score" 2 (by decide),
   analyzers_insufficient_data_early_return.2.2.2 [] "asleep" "mood_score" 41 (by decide)⟩

/-! ### C6: empty cohort in `analyseEventScoreRelationship` -/

/-- C6: with at least 3 valid days, if the early/late partition leaves one
cohort empty, `analyseEventScoreRelationship` does not throw and returns the
"need more varied timing data" result whose `averageScore` is the mean of the
non-empty cohort, with correlation 0, correlationStrength "insufficient
data", and pValue = effectSize = standardDev = null. -/
theorem event_score_empty_cohort (data : List PData) (eventType scoreType : String)
    (thr : ℚ) (h3 : 3 ≤ (validES data eventType scoreType).length) :
    (earlyDaysES data eventType scoreType thr = [] →
      analyseEventScoreRelationship data eventType scoreType thr =
        ⟨0, ((lateDaysES data eventType scoreType thr).map (fun d => (d.get scoreType).getD 0)).sum /
              ((lateDaysES data eventType scoreType thr).map (fun d => (d.get scoreType).getD 0)).length,
         (validES data eventType scoreType).length,
         "Need more varied timing data to analyse the impact of " ++ replaceU eventType ++ " times.",
         none, none, none, "insufficient data"⟩) ∧
    (lateDaysES data eventType scoreType thr = [] →
      analyseEventScoreRelationship data eventType scoreType thr =
        ⟨0, ((earlyDaysES data eventType scoreType thr).map (fun d => (d.get scoreType).getD 0)).sum /
              ((earlyDaysES data eventType scoreType thr).map (fun d => (d.get scoreType).getD 0)).length,
         (validES data eventType scoreType).length,
         "Need more varied timing data to analyse the impact of " ++ replaceU eventType ++ " times.",
         none, none, none, "insufficient data"⟩) := by
  have hne : validES data eventType scoreType ≠ [] := by
    intro h0
    rw [h0] at h3
    simp at h3
  constructor
  · intro hearly
    have hlate : lateDaysES data eventType scoreType thr = validES data eventType scoreType := by
      unfold lateDaysES
      rw [hearly]
      simp
    unfold analyseEventScoreRelationship
    dsimp only
    rw [if_neg (not_lt.mpr h3)]
    rw [hearly]
    have hlpos : 0 < ((lateDaysES data eventType scoreType thr).map
        (fun d => (d.get scoreType).getD 0)).length := by
      rw [hlate, List.length_map]
      exact List.length_pos.mpr hne
    simp only [List.map_nil, List.length_nil, lt_irrefl, if_false, if_pos hlpos]
    rfl
  · intro hlate
    obtain ⟨d, hd⟩ := List.exists_mem_of_ne_nil _ hne
    have hmem : d ∈ earlyDaysES data eventType scoreType thr := by
      by_contra hmem
      have : d ∈ lateDaysES data eventType scoreType thr := by
        unfold lateDaysES
        exact List.mem_filter.mpr ⟨hd, decide_eq_true hmem⟩
      rw [hlate] at this
      exact List.not_mem_nil d this
    have hepos : 0 < ((earlyDaysES data eventType scoreType thr).map
        (fun d => (d.get scoreType).getD 0)).length := by
      rw [List.length_map]
      exact List.length_pos.mpr (List.ne_nil_of_mem hmem)
    unfold analyseEventScoreRelationship
    dsimp only
    rw [if_neg (not_lt.mpr h3)]
    rw [hlate]
    simp only [List.map_nil, List.length_nil, lt_irrefl, if_false, if_pos hepos]
    rfl

/-- Witness for C6: three valid days all falling in the late cohort. -/
theorem event_score_empty_cohort_witness :
    analyseEventScoreRelationship
        [⟨"2024-01-01", [("asleep", 20), ("mood_score", 4)]⟩,
         ⟨"2024-01-02", [("asleep", 20), ("mood_score", 5)]⟩,
         ⟨"2024-01-03", [("asleep", 20), ("mood_score", 6)]⟩]
        "asleep" "mood_score" 30 =
      ⟨0, ((lateDaysES
              [⟨"2024-01-01", [("asleep", 20), ("mood_score", 4)]⟩,
               ⟨"2024-01-02", [("asleep", 20), ("mood_score", 5)]⟩,
               ⟨"2024-01-03", [("asleep", 20), ("mood_score", 6)]⟩]
              "asleep" "mood_score" 30).map (fun d => (d.get "mood_score").getD 0)).sum /
            ((lateDaysES
              [⟨"2024-01-01", [("asleep", 20), ("mood_score", 4)]⟩,
               ⟨"2024-01-02", [("asleep", 20), ("mood_score", 5)]⟩,
               ⟨"2024-01-03", [("asleep", 20), ("mood_score", 6)]⟩]
              "asleep" "mood_score" 30).map (fun d => (d.get "mood_score").getD 0)).length,
       (validES
          [⟨"2024-01-01", [("asleep", 20), ("mood_score", 4)]⟩,
           ⟨"2024-01-02", [("asleep", 20), ("mood_score", 5)]⟩,
           ⟨"2024-01-03", [("asleep", 20), ("mood_score", 6)]⟩] "asleep" "mood_score").length,
       "Need more varied timing data to analyse the impact of " ++ replaceU "asleep" ++ " times.",
       none, none, none, "insufficient data"⟩ :=
  (event_score_empty_cohort
    [⟨"2024-01-01", [("asleep", 20), ("mood_score", 4)]⟩,
     ⟨"2024-01-02", [("asleep", 20), ("mood_score", 5)]⟩,
     ⟨"2024-01-03", [("asleep", 20), ("mood_score", 6)]⟩]
    "asleep" "mood_score" 30 (by decide)).1
    (by norm_num [earlyDaysES, validES, esNorm, PData.get, DAY_PIVOT_HOUR, HOURS_IN_DAY,
      List.filter, List.find?])

/-! ### C9: `averageScore` is always the early/short cohort mean -/

/-- C9: whenever both cohorts are non-empty (and the sample is large enough
to get past the early return), the returned `averageScore` is the early
cohort's mean for `analyseEventScoreRelationship` and
`analysePreviousDayImpact`, and the short cohort's mean for
`analyseDurationImpact` and `analyseSequentialEvents` — never the late/long
cohort's mean and never an overall mean, regardless of which cohort scores
higher. -/
theorem analyzers_average_score_is_early_cohort_mean :
    (∀ data eventType scoreType thr, ¬((validES data eventType scoreType).length < 3) →
      earlyDaysES data eventType scoreType thr ≠ [] →
      lateDaysES data eventType scoreType thr ≠ [] →
      (analyseEventScoreRelationship data eventType scoreType thr).averageScore =
        ((earlyDaysES data eventType scoreType thr).map (fun d => (d.get scoreType).getD 0)).sum /
          ((earlyDaysES data eventType scoreType thr).map (fun d => (d.get scoreType).getD 0)).length) ∧
    (∀ data startEventType endEventType scoreType thr,
      ¬((validDur data startEventType endEventType scoreType).length < 3) →
      (durPairs data startEventType endEventType scoreType).filter (fun d => decide (d.1 ≤ thr)) ≠ [] →
      (durPairs data startEventType endEventType scoreType).filter (fun d => decide (thr < d.1)) ≠ [] →
      (analyseDurationImpact data startEventType endEventType scoreType thr).averageScore =
        (((durPairs data startEventType endEventType scoreType).filter
            (fun d => decide (d.1 ≤ thr))).map (fun d => d.2)).sum /
          (((durPairs data startEventType endEventType scoreType).filter
            (fun d => decide (d.1 ≤ thr))).map (fun d => d.2)).length) ∧
    (∀ data firstEventType secondEventType scoreType thr,
      ¬((validSeq data firstEventType secondEventType scoreType).length < 3) →
      (seqPairs data firstEventType secondEventType scoreType).filter (fun d => decide (d.1 ≤ thr)) ≠ [] →
      (seqPairs data firstEventType secondEventType scoreType).filter (fun d => decide (thr < d.1)) ≠ [] →
      (analyseSequentialEvents data firstEventType secondEventType scoreType thr).averageScore =
        (((seqPairs data firstEventType secondEventType scoreType).filter
            (fun d => decide (d.1 ≤ thr))).map (fun d => d.2)).sum /
          (((seqPairs data firstEventType secondEventType scoreType).filter
            (fun d => decide (d.1 ≤ thr))).map (fun d => d.2)).length) ∧
    (∀ data eventType scoreType thr, ¬((validPairsPD data eventType scoreType).length < 3) →
      earlyGroupPD data eventType scoreType thr ≠ [] →
      lateGroupPD data eventType scoreType thr ≠ [] →
      (analysePreviousDayImpact data eventType scoreType thr).averageScore =
        ((earlyGroupPD data eventType scoreType thr).map (fun p => p.2)).sum /
          ((earlyGroupPD data eventType scoreType thr).map (fun p => p.2)).length) := by
  refine ⟨fun data et sc thr h3 he hl => ?_, fun data s e sc thr h3 he hl => ?_,
    fun data f g sc thr h3 he hl => ?_, fun data et sc thr h3 he hl => ?_⟩
  · have hepos : 0 < ((earlyDaysES data et sc thr).map (fun d => (d.get sc).getD 0)).length := by
      rw [List.length_map]
      exact List.length_pos.mpr he
    have hlpos : 0 < ((lateDaysES data et sc thr).map (fun d => (d.get sc).getD 0)).length := by
      rw [List.length_map]
      exact List.length_pos.mpr hl
    unfold analyseEventScoreRelationship
    dsimp only
    rw [if_neg h3, if_pos hepos, if_pos hlpos]
  · have hepos : 0 < (((durPairs data s e sc).filter
        (fun d => decide (d.1 ≤ thr))).map (fun d => d.2)).length := by
      rw [List.length_map]
      exact List.length_pos.mpr he
    have hlpos : 0 < (((durPairs data s e sc).filter
        (fun d => decide (thr < d.1))).map (fun d => d.2)).length := by
      rw [List.length_map]
      exact List.length_pos.mpr hl
    unfold analyseDurationImpact
    dsimp only
    rw [if_neg h3, if_pos hepos, if_pos hlpos]
  · have hepos : 0 < (((seqPairs data f g sc).filter
        (fun d => decide (d.1 ≤ thr))).map (fun d => d.2)).length := by
      rw [List.length_map]
      exact List.length_pos.mpr he
    have hlpos : 0 < (((seqPairs data f g sc).filter
        (fun d => decide (thr < d.1))).map (fun d => d.2)).length := by
      rw [List.length_map]
      exact List.length_pos.mpr hl
    unfold analyseSequentialEvents
    dsimp only
    rw [if_neg h3, if_pos hepos, if_pos hlpos]
  · have hepos : 0 < ((earlyGroupPD data et sc thr).map (fun p => p.2)).length := by
      rw [List.length_map]
      exact List.length_pos.mpr he
    have hlpos : 0 < ((lateGroupPD data et sc thr).map (fun p => p.2)).length := by
      rw [List.length_map]
      exact List.length_pos.mpr hl
    unfold analysePreviousDayImpact
    dsimp only
    rw [if_neg h3, if_pos hepos, if_pos hlpos]

/-- Concrete dataset for the event-score analyzer: two early sleepers (20:00)
and one late sleeper (25 = 1 AM folded). -/
def c9dataA : List PData :=
  [⟨"d1", [("asleep", 20), ("mood_score", 5)]⟩,
   ⟨"d2", [("asleep", 20), ("mood_score", 7)]⟩,
   ⟨"d3", [("asleep", 25), ("mood_score", 4)]⟩]

/-- Concrete dataset for the duration analyzer: work sessions of 2, 3 and 6
hours. -/
def c9dataB : List PData :=
  [⟨"d1", [("work_start", 10), ("work_end", 12), ("mood_score", 5)]⟩,
   ⟨"d2", [("work_start", 10), ("work_end", 13), ("mood_score", 6)]⟩,
   ⟨"d3", [("work_start", 10), ("work_end", 16), ("mood_score", 4)]⟩]

/-- Concrete dataset for the sequential-gap analyzer: wake-to-work gaps of 1,
2 and 6 hours. -/
def c9dataC : List PData :=
  [⟨"d1", [("awake", 8), ("work_start", 9), ("energy_score", 5)]⟩,
   ⟨"d2", [("awake", 8), ("work_start", 10), ("energy_score", 6)]⟩,
   ⟨"d3", [("awake", 8), ("work_start", 14), ("energy_score", 4)]⟩]

/-- Concrete dataset for the previous-day analyzer: four consecutive days. -/
def c9dataD : List PData :=
  [⟨"2024-01-01", [("asleep", 20), ("mood_score", 4)]⟩,
   ⟨"2024-01-02", [("asleep", 20), ("mood_score", 5)]⟩,
   ⟨"2024-01-03", [("asleep", 25), ("mood_score", 6)]⟩,
   ⟨"2024-01-04", [("asleep", 20), ("mood_score", 7)]⟩]

/-- Witness for C9: each analyzer applied to a concrete dataset whose two
cohorts are both non-empty. -/
theorem analyzers_average_score_is_early_cohort_mean_witness :
    ((analyseEventScoreRelationship c9dataA "asleep" "mood_score" 39).averageScore =
      ((earlyDaysES c9dataA "asleep" "mood_score" 39).map (fun d => (d.get "mood_score").getD 0)).sum /
        ((earlyDaysES c9dataA "asleep" "mood_score" 39).map (fun d => (d.get "mood_score").getD 0)).length) ∧
    ((analyseDurationImpact c9dataB "work_start" "work_end" "mood_score" 4).averageScore =
      (((durPairs c9dataB "work_start" "work_end" "mood_score").filter
          (fun d => decide (d.1 ≤ (4 : ℚ)))).map (fun d => d.2)).sum /
        (((durPairs c9dataB "work_start" "work_end" "mood_score").filter
          (fun d => decide (d.1 ≤ (4 : ℚ)))).map (fun d => d.2)).length) ∧
    ((analyseSequentialEvents c9dataC "awake" "work_start" "energy_score" 3).averageScore =
      (((seqPairs c9dataC "awake" "work_start" "energy_score").filter
          (fun d => decide (d.1 ≤ (3 : ℚ)))).map (fun d => d.2)).sum /
        (((seqPairs c9dataC "awake" "work_start" "energy_score").filter
          (fun d => decide (d.1 ≤ (3 : ℚ)))).map (fun d => d.2)).length) ∧
    ((analysePreviousDayImpact c9dataD "asleep" "mood_score" 21).averageScore =
      ((earlyGroupPD c9dataD "asleep" "mood_score" 21).map (fun p => p.2)).sum /
        ((earlyGroupPD c9dataD "asleep" "mood_score" 21).map (fun p => p.2)).length) :=
  ⟨analyzers_average_score_is_early_cohort_mean.1 c9dataA "asleep" "mood_score" 39
    (by decide)
    (by simp [c9dataA, earlyDaysES, validES, esNorm, PData.get,
        List.find?_cons, DAY_PIVOT_HOUR, HOURS_IN_DAY]
        norm_num)
    (by simp [c9dataA, lateDaysES, earlyDaysES, validES, esNorm, PData.get,
        List.find?_cons, DAY_PIVOT_HOUR, HOURS_IN_DAY]
        norm_num),
   analyzers_average_score_is_early_cohort_mean.2.1 c9dataB "work_start" "work_end" "mood_score" 4
    (by decide)
    (by simp [c9dataB, durPairs, validDur, PData.get, List.find?_cons, HOURS_IN_DAY]
        norm_num)
    (by simp [c9dataB, durPairs, validDur, PData.get, List.find?_cons, HOURS_IN_DAY]
        norm_num),
   analyzers_average_score_is_early_cohort_mean.2.2.1 c9dataC "awake" "work_start" "energy_score" 3
    (by decide)
    (by simp [c9dataC, seqPairs, validSeq, PData.get, List.find?_cons, HOURS_IN_DAY]
        norm_num)
    (by simp [c9dataC, seqPairs, validSeq, PData.get, List.find?_cons, HOURS_IN_DAY]
        norm_num),
   analyzers_average_score_is_early_cohort_mean.2.2.2 c9dataD "asleep" "mood_score" 21
    (by decide) (by decide) (by decide)⟩

/-! ### C7: the 5-day end-to-end sleep/mood scenario -/

lemma strContains_prefix_here (s t : String) : strContains (s ++ t) s := ⟨"", t, rfl⟩

lemma strContains_self (s : String) : strContains s s :=
  ⟨"", "", by rw [String.append_empty]; rfl⟩

lemma strContains_append_left (s t sub : String) (h : strContains t sub) :
    strContains (s ++ t) sub := by
  obtain ⟨a, c, hh⟩ := h
  exact ⟨s ++ a, c, by rw [hh]; simp only [String.append_assoc]⟩

/-- C7: for every 5-day dataset with `asleep` 23 (11 PM) on three days and 25
(1 AM) on two days, an early-threshold splitting them 3/2 (41 ≤ thr < 43, so
the partition bound thr−18 lies in [23, 25)), and the early-sleep days each
scoring exactly 2 mood points above the late-sleep days,
`analyseEventScoreRelationship` returns a `correlationStrength` of at least
"moderate" (in fact "very strong", the correlation being exactly 1) and an
insight containing both cohort averages and the word "earlier". -/
theorem five_day_sleep_mood_scenario (s1 s2 s3 s4 s5 : String) (b thr : ℚ)
    (data : List PData)
    (hdata : data =
      [⟨s1, [("asleep", 23), ("mood_score", b + 2)]⟩,
       ⟨s2, [("asleep", 23), ("mood_score", b + 2)]⟩,
       ⟨s3, [("asleep", 23), ("mood_score", b + 2)]⟩,
       ⟨s4, [("asleep", 25), ("mood_score", b)]⟩,
       ⟨s5, [("asleep", 25), ("mood_score", b)]⟩])
    (h1 : 41 ≤ thr) (h2 : thr < 43) :
    ((analyseEventScoreRelationship data "asleep" "mood_score" thr).correlationStrength = "moderate" ∨
     (analyseEventScoreRelationship data "asleep" "mood_score" thr).correlationStrength = "strong" ∨
     (analyseEventScoreRelationship data "asleep" "mood_score" thr).correlationStrength = "very strong") ∧
    strContains (analyseEventScoreRelationship data "asleep" "mood_score" thr).insight
      (toFixed1 (b + 2)) ∧
    strContains (analyseEventScoreRelationship data "asleep" "mood_score" thr).insight
      (toFixed1 b) ∧
    strContains (analyseEventScoreRelationship data "asleep" "mood_score" thr).insight
      "earlier" := by
  subst hdata
  have hle23 : ((23 : ℚ) ≤ thr - 18) := by linarith
  have hnle25 : ¬((25 : ℚ) ≤ thr - 18) := by linarith
  have h23lt : ¬((23 : ℚ) < 18) := by norm_num
  have h25lt : ¬((25 : ℚ) < 18) := by norm_num
  have h2523 : ¬((25 : ℚ) = 23) := by norm_num
  have h24le23 : ¬((24 : ℚ) ≤ 23) := by norm_num
  have h24le25 : ((24 : ℚ) ≤ 25) := by norm_num
  have hsub : (25 : ℚ) - 24 = 1 := by norm_num
  have hearly : earlyDaysES
      [⟨s1, [("asleep", 23), ("mood_score", b + 2)]⟩,
       ⟨s2, [("asleep", 23), ("mood_score", b + 2)]⟩,
       ⟨s3, [("asleep", 23), ("mood_score", b + 2)]⟩,
       ⟨s4, [("asleep", 25), ("mood_score", b)]⟩,
       ⟨s5, [("asleep", 25), ("mood_score", b)]⟩] "asleep" "mood_score" thr =
      [⟨s1, [("asleep", 23), ("mood_score", b + 2)]⟩,
       ⟨s2, [("asleep", 23), ("mood_score", b + 2)]⟩,
       ⟨s3, [("asleep", 23), ("mood_score", b + 2)]⟩] := by
    simp [earlyDaysES, validES, esNorm, PData.get, List.find?_cons, List.filter_cons,
      DAY_PIVOT_HOUR, HOURS_IN_DAY, hle23, hnle25, h23lt, h25lt]
  have hlate : lateDaysES
      [⟨s1, [("asleep", 23), ("mood_score", b + 2)]⟩,
       ⟨s2, [("asleep", 23), ("mood_score", b + 2)]⟩,
       ⟨s3, [("asleep", 23), ("mood_score", b + 2)]⟩,
       ⟨s4, [("asleep", 25), ("mood_score", b)]⟩,
       ⟨s5, [("asleep", 25), ("mood_score", b)]⟩] "asleep" "mood_score" thr =
      [⟨s4, [("asleep", 25), ("mood_score", b)]⟩,
       ⟨s5, [("asleep", 25), ("mood_score", b)]⟩] := by
    simp [lateDaysES, earlyDaysES, validES, esNorm, PData.get, List.find?_cons, List.filter_cons,
      DAY_PIVOT_HOUR, HOURS_IN_DAY, hle23, hnle25, h23lt, h25lt, h2523]
  have hcorr : calculateCorrelation [23, 23, 23, 1, 1] [b + 2, b + 2, b + 2, b, b] = 1 := by
    unfold calculateCorrelation
    norm_num [List.take]
    rw [show (b : ℝ) + 2 - ((b : ℝ) + 2 + ((b : ℝ) + 2 + ((b : ℝ) + 2 + ((b : ℝ) + (b : ℝ))))) / 5 =
        4 / 5 from by ring]
    rw [show (b : ℝ) - ((b : ℝ) + 2 + ((b : ℝ) + 2 + ((b : ℝ) + 2 + ((b : ℝ) + (b : ℝ))))) / 5 =
        -(6 / 5) from by ring]
    rw [show (b + 2 - (b + 2 + (b + 2 + (b + 2 + (b + b)))) / 5) ^ 2 +
          ((b + 2 - (b + 2 + (b + 2 + (b + 2 + (b + b)))) / 5) ^ 2 +
            ((b + 2 - (b + 2 + (b + 2 + (b + 2 + (b + b)))) / 5) ^ 2 +
              ((b - (b + 2 + (b + 2 + (b + 2 + (b + b)))) / 5) ^ 2 +
                (b - (b + 2 + (b + 2 + (b + 2 + (b + b)))) / 5) ^ 2))) = (24 / 5 : ℚ) from by ring]
    have hs : Real.sqrt (2904 : ℝ) / Real.sqrt 5 *
        Real.sqrt ((4 / 5 : ℝ) ^ 2 + ((4 / 5) ^ 2 + ((4 / 5) ^ 2 +
          ((-(6 / 5)) ^ 2 + (-(6 / 5)) ^ 2)))) = 264 / 5 := by
      rw [show ((4 / 5 : ℝ) ^ 2 + ((4 / 5) ^ 2 + ((4 / 5) ^ 2 +
          ((-(6 / 5)) ^ 2 + (-(6 / 5)) ^ 2)))) = 24 / 5 from by norm_num]
      rw [← Real.sqrt_div (by norm_num : (0 : ℝ) ≤ 2904)]
      rw [← Real.sqrt_mul (by norm_num : (0 : ℝ) ≤ 2904 / 5)]
      rw [show (2904 / 5 * (24 / 5) : ℝ) = (264 / 5) ^ 2 from by norm_num]
      exact Real.sqrt_sq (by norm_num)
    rw [hs]
    norm_num
  unfold analyseEventScoreRelationship
  rw [show validES
      [⟨s1, [("asleep", 23), ("mood_score", b + 2)]⟩,
       ⟨s2, [("asleep", 23), ("mood_score", b + 2)]⟩,
       ⟨s3, [("asleep", 23), ("mood_score", b + 2)]⟩,
       ⟨s4, [("asleep", 25), ("mood_score", b)]⟩,
       ⟨s5, [("asleep", 25), ("mood_score", b)]⟩] "asleep" "mood_score" =
      [⟨s1, [("asleep", 23), ("mood_score", b + 2)]⟩,
       ⟨s2, [("asleep", 23), ("mood_score", b + 2)]⟩,
       ⟨s3, [("asleep", 23), ("mood_score", b + 2)]⟩,
       ⟨s4, [("asleep", 25), ("mood_score", b)]⟩,
       ⟨s5, [("asleep", 25), ("mood_score", b)]⟩] from rfl]
  rw [hearly, hlate]
  simp [PData.get, List.find?_cons, HOURS_IN_DAY, h24le23, h24le25, hsub]
  rw [hcorr]
  have hmean : (b + 2 + (b + 2 + (b + 2))) / 3 = b + 2 := by ring
  rw [hmean]
  have hb : b < b + 2 := by linarith
  rw [if_neg (by norm_num : ¬(|(1 : ℝ)| < 10⁻¹))]
  simp only [hb, if_true, replaceU, replaceUnderscore, String.reduceEq, if_pos]
  refine ⟨Or.inr (Or.inr (by norm_num [getCorrelationStrength])), ?_, ?_, ?_⟩ <;>
    · simp only [String.append_assoc]
      repeat first
        | exact strContains_prefix_here _ _
        | exact strContains_self _
        | apply strContains_append_left

/-- Witness for C7: the scenario at `b = 7`, threshold 42, concrete dates. -/
theorem five_day_sleep_mood_scenario_witness :
    ((analyseEventScoreRelationship
        [⟨"d1", [("asleep", 23), ("mood_score", (7 : ℚ) + 2)]⟩,
         ⟨"d2", [("asleep", 23), ("mood_score", (7 : ℚ) + 2)]⟩,
         ⟨"d3", [("asleep", 23), ("mood_score", (7 : ℚ) + 2)]⟩,
         ⟨"d4", [("asleep", 25), ("mood_score", 7)]⟩,
         ⟨"d5", [("asleep", 25), ("mood_score", 7)]⟩] "asleep" "mood_score" 42).correlationStrength =
        "moderate" ∨
     (analyseEventScoreRelationship
        [⟨"d1", [("asleep", 23), ("mood_score", (7 : ℚ) + 2)]⟩,
         ⟨"d2", [("asleep", 23), ("mood_score", (7 : ℚ) + 2)]⟩,
         ⟨"d3", [("asleep", 23), ("mood_score", (7 : ℚ) + 2)]⟩,
         ⟨"d4", [("asleep", 25), ("mood_score", 7)]⟩,
         ⟨"d5", [("asleep", 25), ("mood_score", 7)]⟩] "asleep" "mood_score" 42).correlationStrength =
        "strong" ∨
     (analyseEventScoreRelationship
        [⟨"d1", [("asleep", 23), ("mood_score", (7 : ℚ) + 2)]⟩,
         ⟨"d2", [("asleep", 23), ("mood_score", (7 : ℚ) + 2)]⟩,
         ⟨"d3", [("asleep", 23), ("mood_score", (7 : ℚ) + 2)]⟩,
         ⟨"d4", [("asleep", 25), ("mood_score", 7)]⟩,
         ⟨"d5", [("asleep", 25), ("mood_score", 7)]⟩] "asleep" "mood_score" 42).correlationStrength =
        "very strong") ∧
    strContains (analyseEventScoreRelationship
        [⟨"d1", [("asleep", 23), ("mood_score", (7 : ℚ) + 2)]⟩,
         ⟨"d2", [("asleep", 23), ("mood_score", (7 : ℚ) + 2)]⟩,
         ⟨"d3", [("asleep", 23), ("mood_score", (7 : ℚ) + 2)]⟩,
         ⟨"d4", [("asleep", 25), ("mood_score", 7)]⟩,
         ⟨"d5", [("asleep", 25), ("mood_score", 7)]⟩] "asleep" "mood_score" 42).insight
      (toFixed1 ((7 : ℚ) + 2)) ∧
    strContains (analyseEventScoreRelationship
        [⟨"d1", [("asleep", 23), ("mood_score", (7 : ℚ) + 2)]⟩,
         ⟨"d2", [("asleep", 23), ("mood_score", (7 : ℚ) + 2)]⟩,
         ⟨"d3", [("asleep", 23), ("mood_score", (7 : ℚ) + 2)]⟩,
         ⟨"d4", [("asleep", 25), ("mood_score", 7)]⟩,
         ⟨"d5", [("asleep", 25), ("mood_score", 7)]⟩] "asleep" "mood_score" 42).insight
      (toFixed1 (7 : ℚ)) ∧
    strContains (analyseEventScoreRelationship
        [⟨"d1", [("asleep", 23), ("mood_score", (7 : ℚ) + 2)]⟩,
         ⟨"d2", [("asleep", 23), ("mood_score", (7 : ℚ) + 2)]⟩,
         ⟨"d3", [("asleep", 23), ("mood_score", (7 : ℚ) + 2)]⟩,
         ⟨"d4", [("asleep", 25), ("mood_score", 7)]⟩,
         ⟨"d5", [("asleep", 25), ("mood_score", 7)]⟩] "asleep" "mood_score" 42).insight
      "earlier" :=
  five_day_sleep_mood_scenario "d1" "d2" "d3" "d4" "d5" 7 42 _ rfl
    (by norm_num) (by norm_num)

end Dashboard
